import Mathlib

/-!
Verification of the control core of the ESP32 water-level monitor
(`water_level.ino`): sensor conversion, level estimation, the
safety-gated pump decision evaluated each tick of `loop()`, the
actuator driver `setPump`, the status snapshot built by
`broadcastData`, and the configuration patches handled by `onWsEvent`.

Modelling conventions:
- C `float` arithmetic is embedded as exact rational arithmetic (`ℚ`);
  `int` values as `ℤ`; `unsigned long` millisecond counters as `ℕ`
  with explicit wraparound `% 2^32` where the code subtracts them.
- The C cast `(int)x` truncates toward zero: `ratTrunc`.
- The Arduino `round(x)` macro `((x)>=0?(long)((x)+0.5):(long)((x)-0.5))`
  rounds half away from zero: `ardRound`.
- At `tank_height == 0` the expression
  `(waterHeight_cm / tank_height) * 100.0f` divides by zero (NaN) and the
  subsequent `(int)` cast of NaN has no defined result, so the percent
  computation is embedded fallibly as `Option ℤ`, `none` in that case.
- `millis()` is passed in as an explicit `now` argument; `pulseIn`
  results are explicit `duration` arguments (0 encodes the 30 ms timeout).
-/

namespace WaterLevel

/-- Arduino `constrain(amt, low, high)` macro:
`(amt<low)?low:((amt>high)?high:amt)`. -/
def constrain (amt low high : ℤ) : ℤ :=
  if amt < low then low else if amt > high then high else amt

/-- The C cast `(int)q`: truncation toward zero (floor for non-negative
values, ceiling for negative ones). -/
def ratTrunc (q : ℚ) : ℤ :=
  if 0 ≤ q then ⌊q⌋ else ⌈q⌉

/-- Arduino `round(x)` macro: round half away from zero. -/
def ardRound (q : ℚ) : ℤ :=
  if 0 ≤ q then ratTrunc (q + 1/2) else ratTrunc (q - 1/2)

/-- Arduino's `PI` constant, an exact decimal literal. -/
def PI : ℚ := 3.1415926535897932384626433832795

/-- `const int HYSTERESIS_PERCENT = 10;` -/
def HYSTERESIS_PERCENT : ℤ := 10

/-- `const unsigned long PUMP_MAX_RUNTIME_MS = 300000UL;` (5 minutes) -/
def PUMP_MAX_RUNTIME_MS : ℕ := 300000

/-- `const unsigned long MIN_PUMP_RUN_MS = 30000UL;` (30 seconds) -/
def MIN_PUMP_RUN_MS : ℕ := 30000

/-- The mutable configuration globals: `tank_height`, `tank_radius`,
`low_threshold_percent` and the derived `high_threshold_percent`. -/
structure Config where
  tank_height : ℚ
  tank_radius : ℚ
  low_threshold_percent : ℤ
  high_threshold_percent : ℤ
deriving DecidableEq

/-- The cross-tick pump state globals: `pumpState`, `pumpStartTs`,
`lastWaterPercentage`. -/
structure PumpState where
  pumpState : Bool
  pumpStartTs : ℕ
  lastWaterPercentage : ℤ
deriving DecidableEq

/-- Initial values of the configuration globals (lines 38-47):
`tank_height = 100`, `tank_radius = 30`, `low_threshold_percent = 20`,
`high_threshold_percent = low_threshold_percent + HYSTERESIS_PERCENT`. -/
def initialConfig : Config :=
  { tank_height := 100, tank_radius := 30
    low_threshold_percent := 20
    high_threshold_percent := 20 + HYSTERESIS_PERCENT }

/-- Initial pump state globals (lines 43-46). -/
def initialPump : PumpState :=
  { pumpState := false, pumpStartTs := 0, lastWaterPercentage := 0 }

/-- `getDistance()`: converts the `pulseIn` echo duration (µs) to cm, or
returns the out-of-range sentinel `tank_height + 10` when `pulseIn`
timed out (returned 0):
`return (duration > 0) ? (duration * 0.0343) / 2.0f : tank_height + 10;` -/
def getDistance (duration : ℕ) (tank_height : ℚ) : ℚ :=
  if duration > 0 then ((duration : ℚ) * (343/10000)) / 2 else tank_height + 10

/-- `float waterHeight_cm = max(0.0f, tank_height - getDistance());`
(taking the distance as an argument). -/
def waterHeightCm (tank_height distance : ℚ) : ℚ :=
  max 0 (tank_height - distance)

/-- `waterPercentage = constrain((int)((waterHeight_cm / tank_height) * 100.0f), 0, 100);`
`none` when `tank_height = 0`: the float division then yields NaN and the
`(int)` cast of NaN has no defined value. -/
def waterPercentage (tank_height distance : ℚ) : Option ℤ :=
  if tank_height = 0 then none
  else some (constrain (ratTrunc ((waterHeightCm tank_height distance / tank_height) * 100)) 0 100)

/-- `volume_l = (PI * tank_radius * tank_radius * waterHeight_cm) / 1000.0f;` -/
def volumeL (tank_radius waterHeight_cm : ℚ) : ℚ :=
  (PI * tank_radius * tank_radius * waterHeight_cm) / 1000

/-- The reported volume `round(volume_l * 10) / 10.0f`. -/
def volumeReported (volume_l : ℚ) : ℚ :=
  (ardRound (volume_l * 10) : ℚ) / 10

/-- `millis() - pumpStartTs` on 32-bit `unsigned long` values:
wraparound subtraction mod `2^32`. -/
def elapsed (now ts : ℕ) : ℕ :=
  (now % 2^32 + 2^32 - ts % 2^32) % 2^32

/-- The hysteresis base decision (lines 141-143):
`if (waterPercentage < low_threshold_percent) wantPump = true;`
`else if (waterPercentage > high_threshold_percent) wantPump = false;`
`else wantPump = pumpState;` -/
def wantPumpBase (percent low high : ℤ) (pumpState : Bool) : Bool :=
  if percent < low then true
  else if percent > high then false
  else pumpState

/-- The full per-tick pump decision (lines 140-150): hysteresis base,
then the top-sensor overflow interlock
(`if (digitalRead(TOP_SENSOR_PIN) == LOW) wantPump = false;`),
then, only when the pump is already on, the max-runtime and dry-run
cutoffs computed from `runtime = millis() - pumpStartTs`. -/
def wantPumpDecision (percent low high : ℤ) (topLow : Bool) (s : PumpState) (now : ℕ) : Bool :=
  let w1 := wantPumpBase percent low high s.pumpState
  let w2 := if topLow then false else w1
  if s.pumpState then
    let runtime := elapsed now s.pumpStartTs
    let w3 := if runtime > PUMP_MAX_RUNTIME_MS then false else w2
    if runtime > MIN_PUMP_RUN_MS ∧ percent ≤ s.lastWaterPercentage then false else w3
  else w2

/-- Whether one of the ON-state runtime cutoffs (lines 146-150) fires. -/
def runtimeCutoffFires (percent : ℤ) (s : PumpState) (now : ℕ) : Prop :=
  s.pumpState = true ∧
    (elapsed now s.pumpStartTs > PUMP_MAX_RUNTIME_MS ∨
      (elapsed now s.pumpStartTs > MIN_PUMP_RUN_MS ∧ percent ≤ s.lastWaterPercentage))

instance (percent : ℤ) (s : PumpState) (now : ℕ) :
    Decidable (runtimeCutoffFires percent s now) := by
  unfold runtimeCutoffFires; infer_instance

/-- `setPump(on)` (lines 171-178): when `on != pumpState`, flips the
state, writes the pin (`some on` in the second component), and stamps
`pumpStartTs = millis()` when the new state is ON; otherwise does
nothing and writes nothing (`none`). -/
def setPump (wantOn : Bool) (s : PumpState) (now : ℕ) : PumpState × Option Bool :=
  if wantOn ≠ s.pumpState then
    ({ s with pumpState := wantOn, pumpStartTs := if wantOn then now else s.pumpStartTs },
      some wantOn)
  else (s, none)

/-- The JSON status record built by `broadcastData()` (lines 185-193). -/
structure Snapshot where
  water : ℤ
  pump : ℤ
  threshold : ℤ
  topTriggered : ℤ
  height : ℤ
  volume : ℚ
  tankHeight : ℤ
  tankRadius : ℤ
deriving DecidableEq

/-- `broadcastData()` (lines 180-198): takes its OWN fresh
`getDistance()` sample (`duration` here) and its own fresh top-sensor
read, recomputes height/percent/volume from them, and builds the
snapshot. `none` when `tank_height = 0` (the percent computation is
then undefined, see `waterPercentage`). -/
def broadcastData (cfg : Config) (pumpOn : Bool) (duration : ℕ) (topLow : Bool) :
    Option Snapshot :=
  match waterPercentage cfg.tank_height (getDistance duration cfg.tank_height) with
  | none => none
  | some w =>
    let hcm := waterHeightCm cfg.tank_height (getDistance duration cfg.tank_height)
    some { water := w
           pump := if pumpOn then 1 else 0
           threshold := cfg.low_threshold_percent
           topTriggered := if topLow then 1 else 0
           height := ratTrunc hcm
           volume := volumeReported (volumeL cfg.tank_radius hcm)
           tankHeight := ratTrunc cfg.tank_height
           tankRadius := ratTrunc cfg.tank_radius }

/-- External inputs consumed by one execution of the tick body in
`loop()`: the `pulseIn` duration of the `getDistance()` call at line
136 and the top-sensor read at line 145, then the second `pulseIn`
duration and second top-sensor read performed inside `broadcastData()`
at lines 181 and 189, and the `millis()` value. -/
structure TickInput where
  duration1 : ℕ
  topLow1 : Bool
  duration2 : ℕ
  topLow2 : Bool
  now : ℕ
deriving DecidableEq

/-- Result of one tick: the updated pump state, the pin write performed
by `setPump` (if any), and the broadcast snapshot. -/
structure TickResult where
  state : PumpState
  pinWrite : Option Bool
  snapshot : Snapshot
deriving DecidableEq

/-- The tick body of `loop()` (lines 134-157): sample and estimate
level, decide, apply via `setPump`, record `lastWaterPercentage`, then
`broadcastData()`. `none` when `tank_height = 0` (undefined percent). -/
def tickBody (cfg : Config) (s : PumpState) (inp : TickInput) : Option TickResult :=
  match waterPercentage cfg.tank_height (getDistance inp.duration1 cfg.tank_height) with
  | none => none
  | some percent =>
    let want := wantPumpDecision percent cfg.low_threshold_percent
      cfg.high_threshold_percent inp.topLow1 s inp.now
    let r := setPump want s inp.now
    let s2 := { r.1 with lastWaterPercentage := percent }
    match broadcastData cfg s2.pumpState inp.duration2 inp.topLow2 with
    | none => none
    | some snap => some ⟨s2, r.2, snap⟩

/-- A sparse configuration patch received over the WebSocket: any subset
of `{threshold, height, radius}`. -/
structure Patch where
  threshold : Option ℤ
  height : Option ℚ
  radius : Option ℚ
deriving DecidableEq

/-- The configuration mutation in `onWsEvent` (lines 74-84): each
present key overwrites the corresponding global verbatim; a `threshold`
key also recomputes
`high_threshold_percent = constrain(low_threshold_percent + HYSTERESIS_PERCENT, 0, 100)`. -/
def applyPatch (p : Patch) (c : Config) : Config :=
  let c1 := match p.threshold with
    | some t =>
      { c with low_threshold_percent := t
               high_threshold_percent := constrain (t + HYSTERESIS_PERCENT) 0 100 }
    | none => c
  let c2 := match p.height with
    | some hv => { c1 with tank_height := hv }
    | none => c1
  match p.radius with
  | some rv => { c2 with tank_radius := rv }
  | none => c2

/-- The spec's stated percent formula, which ROUNDS rather than
truncates: `percent = clamp(round(heightCm / geometry.height * 100), 0, 100)`.
Kept for comparison with the code's `waterPercentage`. -/
def percentSpecRounded (tank_height distance : ℚ) : ℤ :=
  constrain (ardRound ((waterHeightCm tank_height distance / tank_height) * 100)) 0 100

/-- The derived-threshold invariant maintained by `onWsEvent`. -/
def threshInv (c : Config) : Prop :=
  c.high_threshold_percent = constrain (c.low_threshold_percent + HYSTERESIS_PERCENT) 0 100

/-! Helper lemmas shared by the claim theorems. -/

theorem ratTrunc_zero : ratTrunc 0 = 0 := by
  norm_num [ratTrunc]

theorem waterPercentage_of_ne (tank_height distance : ℚ) (hh : tank_height ≠ 0) :
    waterPercentage tank_height distance
      = some (constrain (ratTrunc (waterHeightCm tank_height distance / tank_height * 100)) 0 100) := by
  simp [waterPercentage, hh]

theorem getDistance_timeout_100 : getDistance 0 (100 : ℚ) = 110 := by
  norm_num [getDistance]

theorem getDistance_4000_100 : getDistance 4000 (100 : ℚ) = 343/5 := by
  norm_num [getDistance]

theorem waterPercentage_100_110 : waterPercentage 100 110 = some 0 := by
  norm_num [waterPercentage, waterHeightCm, ratTrunc, constrain]

theorem waterPercentage_100_686 : waterPercentage 100 (343/5) = some 31 := by
  norm_num [waterPercentage, waterHeightCm, ratTrunc, constrain]

theorem waterPercentage_100_70 : waterPercentage 100 70 = some 30 := by
  norm_num [waterPercentage, waterHeightCm, ratTrunc, constrain]

theorem waterHeightCm_100_70 : waterHeightCm 100 70 = 30 := by
  norm_num [waterHeightCm]

theorem wantPumpDecision_overflow (percent low high : ℤ) (s : PumpState) (now : ℕ) :
    wantPumpDecision percent low high true s now = false := by
  unfold wantPumpDecision
  simp

theorem setPump_pumpState (wantOn : Bool) (s : PumpState) (now : ℕ) :
    (setPump wantOn s now).1.pumpState = wantOn := by
  unfold setPump
  by_cases h : wantOn = s.pumpState <;> simp [h]

theorem wantPumpDecision_pumpOff (percent low high : ℤ) (topLow : Bool) (s : PumpState)
    (now : ℕ) (hp : s.pumpState = false) :
    wantPumpDecision percent low high topLow s now
      = (if topLow then false else wantPumpBase percent low high s.pumpState) := by
  unfold wantPumpDecision
  simp [hp]

theorem wantPumpDecision_no_cutoff (percent low high : ℤ) (s : PumpState) (now : ℕ)
    (hcut : ¬ runtimeCutoffFires percent s now) :
    wantPumpDecision percent low high false s now = wantPumpBase percent low high s.pumpState := by
  unfold wantPumpDecision
  by_cases hp : s.pumpState
  · have hA : ¬ elapsed now s.pumpStartTs > PUMP_MAX_RUNTIME_MS := fun a =>
      hcut ⟨hp, Or.inl a⟩
    have hB : ¬ (elapsed now s.pumpStartTs > MIN_PUMP_RUN_MS ∧ percent ≤ s.lastWaterPercentage) :=
      fun b => hcut ⟨hp, Or.inr b⟩
    simp [hp, hA, hB]
  · simp [hp]

theorem wantPumpDecision_true_imp (percent low high : ℤ) (topLow : Bool) (s : PumpState)
    (now : ℕ) (hdec : wantPumpDecision percent low high topLow s now = true) :
    topLow = false ∧ wantPumpBase percent low high s.pumpState = true := by
  unfold wantPumpDecision at hdec
  by_cases ho : topLow
  · exfalso
    by_cases hp : s.pumpState <;> simp [ho, hp] at hdec
  · constructor
    · simpa using ho
    · by_cases hp : s.pumpState
      · rw [hp]
        simp only [hp, if_true, Bool.false_eq_true, if_false, ho] at hdec
        by_cases hA : elapsed now s.pumpStartTs > PUMP_MAX_RUNTIME_MS
        · simp [hA] at hdec
        · by_cases hB : elapsed now s.pumpStartTs > MIN_PUMP_RUN_MS ∧
              percent ≤ s.lastWaterPercentage
          · simp [hA, hB] at hdec
          · simpa [hA, hB] using hdec
      · rw [Bool.not_eq_true] at hp
        rw [hp]
        simpa [hp, ho] using hdec

theorem constrain_hyst_ge (low : ℤ) (hle : low ≤ 100) :
    constrain (low + HYSTERESIS_PERCENT) 0 100 ≥ low := by
  unfold constrain HYSTERESIS_PERCENT
  split
  · omega
  · split <;> omega

theorem threshInv_initial : threshInv initialConfig := by
  unfold threshInv
  decide

theorem threshInv_applyPatch (c : Config) (p : Patch) (h : threshInv c) :
    threshInv (applyPatch p c) := by
  unfold threshInv applyPatch at *
  rcases p with ⟨t, hv, rv⟩
  cases t <;> cases hv <;> cases rv <;> simp_all

theorem threshInv_foldl (ps : List Patch) (c : Config) (h : threshInv c) :
    threshInv (ps.foldl (fun a p => applyPatch p a) c) := by
  induction ps generalizing c with
  | nil => exact h
  | cons p ps ih => exact ih _ (threshInv_applyPatch _ _ h)

/-! The claim theorems. -/

/-- Claim C1: on every tick whose overflow (top) sensor reads triggered,
the pump decision is OFF regardless of percent, thresholds and prior
pump state, and after `setPump` the pump is off — the pump is never
commanded ON on a tick with the overflow flag true. -/
theorem overflowForcesOff (percent low high : ℤ) (s : PumpState) (now : ℕ) :
    wantPumpDecision percent low high true s now = false ∧
    (setPump (wantPumpDecision percent low high true s now) s now).1.pumpState = false := by
  refine ⟨wantPumpDecision_overflow percent low high s now, ?_⟩
  rw [wantPumpDecision_overflow percent low high s now]
  exact setPump_pumpState false s now

/-- Claim C2: with overflow false and no ON-state runtime cutoff firing,
the base hysteresis decision holds: percent below `lowPercent` gives ON,
percent above `highPercent` gives OFF, and in the dead-band the decision
equals the prior pump state. -/
theorem hysteresisBaseDecision (percent low high : ℤ) (s : PumpState) (now : ℕ)
    (hcut : ¬ runtimeCutoffFires percent s now) :
    (percent < low → wantPumpDecision percent low high false s now = true) ∧
    (low ≤ percent → high < percent → wantPumpDecision percent low high false s now = false) ∧
    (low ≤ percent → percent ≤ high →
      wantPumpDecision percent low high false s now = s.pumpState) := by
  rw [wantPumpDecision_no_cutoff percent low high s now hcut]
  unfold wantPumpBase
  refine ⟨?_, ?_, ?_⟩
  · intro h
    rw [if_pos h]
  · intro h1 h2
    rw [if_neg (by omega), if_pos h2]
  · intro h1 h2
    rw [if_neg (by omega), if_neg (by omega)]

/-- Witness for C2: concrete instances of all three hysteresis cases,
the third with the pump ON and the cutoffs not firing. -/
theorem hysteresisBaseDecision_witness :
    wantPumpDecision 10 20 30 false ⟨false, 0, 0⟩ 0 = true ∧
    wantPumpDecision 40 20 30 false ⟨false, 0, 0⟩ 0 = false ∧
    wantPumpDecision 25 20 30 false ⟨true, 0, 0⟩ 40000 = true := by
  refine ⟨?_, ?_, ?_⟩
  · exact (hysteresisBaseDecision 10 20 30 ⟨false, 0, 0⟩ 0 (by decide)).1 (by decide)
  · exact (hysteresisBaseDecision 40 20 30 ⟨false, 0, 0⟩ 0 (by decide)).2.1 (by decide) (by decide)
  · exact (hysteresisBaseDecision 25 20 30 ⟨true, 0, 0⟩ 40000 (by decide)).2.2 (by decide) (by decide)

/-- Claim C3: the runtime cutoffs run only with the pump ON and only
force OFF: with the pump OFF the decision is just the overflow-gated
hysteresis result; with the pump ON, runtime above the 5-minute ceiling
forces OFF, and runtime above the 30-second grace period with percent
not above `lastWaterPercentage` forces OFF; an ON decision always comes
from the base hysteresis rule with no overflow. -/
theorem runtimeCutoffsOnlyStop (percent low high : ℤ) (topLow : Bool) (s : PumpState)
    (now : ℕ) :
    (s.pumpState = false →
      wantPumpDecision percent low high topLow s now
        = (if topLow then false else wantPumpBase percent low high s.pumpState)) ∧
    (s.pumpState = true → elapsed now s.pumpStartTs > PUMP_MAX_RUNTIME_MS →
      wantPumpDecision percent low high topLow s now = false) ∧
    (s.pumpState = true → elapsed now s.pumpStartTs > MIN_PUMP_RUN_MS →
      percent ≤ s.lastWaterPercentage →
      wantPumpDecision percent low high topLow s now = false) ∧
    (wantPumpDecision percent low high topLow s now = true →
      topLow = false ∧ wantPumpBase percent low high s.pumpState = true) := by
  refine ⟨wantPumpDecision_pumpOff percent low high topLow s now, ?_, ?_,
    wantPumpDecision_true_imp percent low high topLow s now⟩
  · intro hp hA
    unfold wantPumpDecision
    simp [hp, hA]
  · intro hp hB hC
    unfold wantPumpDecision
    simp [hp, hB, hC]

/-- Witness for C3: the pump-OFF frame case, the max-runtime cutoff, the
dry-run cutoff, and the ON-decision characterization, at concrete
inputs. -/
theorem runtimeCutoffsOnlyStop_witness :
    wantPumpDecision 10 20 30 false ⟨false, 0, 0⟩ 999999 = true ∧
    wantPumpDecision 10 20 30 false ⟨true, 0, 50⟩ 400000 = false ∧
    wantPumpDecision 10 20 30 false ⟨true, 0, 10⟩ 40000 = false ∧
    (false = false ∧ wantPumpBase 10 20 30 false = true) := by
  refine ⟨?_, ?_, ?_, ?_⟩
  · have h := (runtimeCutoffsOnlyStop 10 20 30 false ⟨false, 0, 0⟩ 999999).1 (by decide)
    rw [h]
    decide
  · exact (runtimeCutoffsOnlyStop 10 20 30 false ⟨true, 0, 50⟩ 400000).2.1 (by decide) (by decide)
  · exact (runtimeCutoffsOnlyStop 10 20 30 false ⟨true, 0, 10⟩ 40000).2.2.1 (by decide)
      (by decide) (by decide)
  · exact (runtimeCutoffsOnlyStop 10 20 30 false ⟨false, 0, 0⟩ 0).2.2.2 (by decide)

/-- Claim C4: `setPump` is idempotent and frame-preserving: when the
decision equals the current state nothing changes and nothing is
written; `pumpStartTs` is stamped to `now` exactly on the OFF→ON
transition (never on an OFF decision); the pin is written only on
state-changing calls; `lastWaterPercentage` is never touched. -/
theorem setPumpFrame (wantOn : Bool) (s : PumpState) (now : ℕ) :
    (wantOn = s.pumpState → setPump wantOn s now = (s, none)) ∧
    (s.pumpState = false →
      (setPump true s now).1.pumpStartTs = now ∧ (setPump true s now).2 = some true) ∧
    ((setPump false s now).1.pumpStartTs = s.pumpStartTs) ∧
    ((setPump wantOn s now).2 ≠ none → wantOn ≠ s.pumpState) ∧
    ((setPump wantOn s now).1.lastWaterPercentage = s.lastWaterPercentage) := by
  refine ⟨?_, ?_, ?_, ?_, ?_⟩
  · intro h
    unfold setPump
    simp [h]
  · intro hp
    unfold setPump
    simp [hp]
  · unfold setPump
    by_cases hp : s.pumpState <;> simp [hp]
  · intro hw
    unfold setPump at hw
    by_cases h : wantOn = s.pumpState
    · simp [h] at hw
    · exact h
  · unfold setPump
    by_cases h : wantOn = s.pumpState <;> simp [h]

/-- Witness for C4: the idempotent ON→ON call leaves the state intact,
and a concrete OFF→ON transition stamps the timestamp. -/
theorem setPumpFrame_witness :
    setPump true ⟨true, 7, 3⟩ 5000 = (⟨true, 7, 3⟩, none) ∧
    (setPump true ⟨false, 7, 3⟩ 5000).1.pumpStartTs = 5000 := by
  refine ⟨(setPumpFrame true ⟨true, 7, 3⟩ 5000).1 (by decide),
    ((setPumpFrame true ⟨false, 7, 3⟩ 5000).2.1 (by decide)).1⟩

/-- Counterexample to claim C5: a sensor timeout alone DOES command the
pump ON. On the default configuration (low threshold 20), pump
previously OFF, overflow false, a timed-out sample (`duration1 = 0`)
yields the sentinel distance 110, height 0, percent 0 < 20, and the
tick turns the pump ON and writes the pin high. -/
theorem sensorTimeoutCounterexample :
    (tickBody initialConfig initialPump ⟨0, false, 0, false, 5000⟩).map
        (fun r => r.state.pumpState) = some true ∧
    (tickBody initialConfig initialPump ⟨0, false, 0, false, 5000⟩).map
        (fun r => r.pinWrite) = some (some true) := by
  have h1 : waterPercentage initialConfig.tank_height
      (getDistance 0 initialConfig.tank_height) = some 0 := by
    show waterPercentage 100 (getDistance 0 100) = some 0
    rw [getDistance_timeout_100]
    exact waterPercentage_100_110
  have h2 : wantPumpDecision 0 initialConfig.low_threshold_percent
      initialConfig.high_threshold_percent false ⟨false, 0, 0⟩ 5000 = true := by decide
  constructor <;>
    simp [tickBody, broadcastData, h1, h2, setPump, initialPump]

/-- Claim C5 as amended: on timeout, `getDistance` returns the sentinel
`tank_height + 10` rather than halting, the resulting reading clamps
height to 0 and percent to 0, and this reading IS interpreted as "tank
empty": with the pump previously OFF, overflow false, and a positive
low threshold, the decision of that tick is ON. -/
theorem sensorTimeoutAmended (cfg : Config) (s : PumpState) (now : ℕ)
    (hh : cfg.tank_height ≠ 0) (hs : s.pumpState = false)
    (hlow : 0 < cfg.low_threshold_percent) :
    getDistance 0 cfg.tank_height = cfg.tank_height + 10 ∧
    waterPercentage cfg.tank_height (getDistance 0 cfg.tank_height) = some 0 ∧
    wantPumpDecision 0 cfg.low_threshold_percent cfg.high_threshold_percent false s now
      = true := by
  have hdist : getDistance 0 cfg.tank_height = cfg.tank_height + 10 := by
    unfold getDistance
    simp
  refine ⟨hdist, ?_, ?_⟩
  · rw [hdist, waterPercentage_of_ne _ _ hh]
    have hcm : waterHeightCm cfg.tank_height (cfg.tank_height + 10) = 0 := by
      unfold waterHeightCm
      have : cfg.tank_height - (cfg.tank_height + 10) = -10 := by ring
      rw [this]
      exact max_eq_left (by norm_num)
    rw [hcm]
    simp [ratTrunc_zero]
    decide
  · rw [wantPumpDecision_pumpOff _ _ _ _ _ _ hs]
    unfold wantPumpBase
    simp [hlow]

/-- Witness for C5 (amended): the timeout behavior at the default
configuration and initial pump state. -/
theorem sensorTimeoutAmended_witness :
    getDistance 0 initialConfig.tank_height = initialConfig.tank_height + 10 ∧
    waterPercentage initialConfig.tank_height
        (getDistance 0 initialConfig.tank_height) = some 0 ∧
    wantPumpDecision 0 initialConfig.low_threshold_percent
        initialConfig.high_threshold_percent false initialPump 0 = true :=
  sensorTimeoutAmended initialConfig initialPump 0 (by decide) (by decide) (by decide)

/-- Counterexample to claim C6: the invariant `highPercent >= lowPercent`
does NOT hold for every patch sequence: the patch `{threshold: 101}` is
stored unvalidated, making `lowPercent = 101` while
`highPercent = clamp(111, 0, 100) = 100 < 101`. -/
theorem thresholdInvCounterexample :
    (applyPatch ⟨some 101, none, none⟩ initialConfig).low_threshold_percent = 101 ∧
    (applyPatch ⟨some 101, none, none⟩ initialConfig).high_threshold_percent = 100 ∧
    ¬ (applyPatch ⟨some 101, none, none⟩ initialConfig).high_threshold_percent
        ≥ (applyPatch ⟨some 101, none, none⟩ initialConfig).low_threshold_percent := by
  refine ⟨by decide, by decide, by decide⟩

/-- Claim C6 as amended: after initialization and after every sequence
of configuration patches, `highPercent = clamp(lowPercent + 10, 0, 100)`
holds; and `highPercent >= lowPercent` holds whenever the stored
`lowPercent` does not exceed 100 (an unvalidated threshold above 100
violates it). -/
theorem thresholdInvAmended (ps : List Patch) :
    threshInv (ps.foldl (fun a p => applyPatch p a) initialConfig) ∧
    ((ps.foldl (fun a p => applyPatch p a) initialConfig).low_threshold_percent ≤ 100 →
      (ps.foldl (fun a p => applyPatch p a) initialConfig).high_threshold_percent
        ≥ (ps.foldl (fun a p => applyPatch p a) initialConfig).low_threshold_percent) := by
  have hinv := threshInv_foldl ps initialConfig threshInv_initial
  refine ⟨hinv, fun hle => ?_⟩
  unfold threshInv at hinv
  rw [hinv]
  exact constrain_hyst_ge _ hle

/-- Witness for C6 (amended): the spec's own example patch
`{threshold: 25}` derives `highPercent = 35 ≥ 25`. -/
theorem thresholdInvAmended_witness :
    (([⟨some 25, none, none⟩] : List Patch).foldl (fun a p => applyPatch p a)
        initialConfig).high_threshold_percent
      ≥ (([⟨some 25, none, none⟩] : List Patch).foldl (fun a p => applyPatch p a)
        initialConfig).low_threshold_percent :=
  (thresholdInvAmended [⟨some 25, none, none⟩]).2 (by decide)

/-- Counterexample to claim C7: the percent is truncated, not rounded.
At geometry height 100 and distance 69.3 the exact value is 30.7: the
code's `(int)` cast yields 30 while the spec's
`clamp(round(…), 0, 100)` yields 31. -/
theorem percentRoundingCounterexample :
    waterPercentage 100 (693/10) = some 30 ∧
    percentSpecRounded 100 (693/10) = 31 ∧ (30 : ℤ) ≠ 31 := by
  refine ⟨?_, ?_, by decide⟩
  · norm_num [waterPercentage, waterHeightCm, ratTrunc, constrain]
  · norm_num [percentSpecRounded, waterHeightCm, ardRound, ratTrunc, constrain]

/-- Claim C7 as amended: `heightCm = max(0, height - distance)`;
`percent = clamp(trunc(heightCm / height * 100), 0, 100)` (truncated by
the `(int)` cast, not rounded); the reported volume is
`round(π·radius²·heightCm/1000 · 10)/10`; and the spec's example holds:
geometry {height 100, radius 30} with distance 70 gives heightCm 30,
percent 30, reported volume 84.8. -/
theorem levelEstimateAmended (tank_height distance : ℚ) (hh : tank_height ≠ 0) :
    waterHeightCm tank_height distance = max 0 (tank_height - distance) ∧
    waterPercentage tank_height distance
      = some (constrain (ratTrunc (waterHeightCm tank_height distance / tank_height * 100))
          0 100) ∧
    waterHeightCm 100 70 = 30 ∧
    waterPercentage 100 70 = some 30 ∧
    volumeL 30 (waterHeightCm 100 70) = PI * 900 * 30 / 1000 ∧
    volumeReported (volumeL 30 (waterHeightCm 100 70)) = 424/5 := by
  refine ⟨rfl, waterPercentage_of_ne _ _ hh, waterHeightCm_100_70, waterPercentage_100_70,
    ?_, ?_⟩
  · rw [waterHeightCm_100_70]
    unfold volumeL
    ring
  · rw [waterHeightCm_100_70]
    norm_num [volumeReported, volumeL, ardRound, ratTrunc, PI]

/-- Witness for C7 (amended): the amended estimate at the example
geometry. -/
theorem levelEstimateAmended_witness :
    waterPercentage 100 70
      = some (constrain (ratTrunc (waterHeightCm 100 70 / 100 * 100)) 0 100) ∧
    volumeReported (volumeL 30 (waterHeightCm 100 70)) = 424/5 :=
  ⟨(levelEstimateAmended 100 70 (by decide)).2.1,
    (levelEstimateAmended 100 70 (by decide)).2.2.2.2.2⟩

/-- Counterexample to claim C8: at `tank_height = 0` the percent
computation divides by zero with no guard — the float expression is NaN
and the `(int)` cast of it has no defined value (embedded as `none`);
no defined degenerate 0-percent reading is produced and no invalid flag
exists. -/
theorem divByZeroCounterexample :
    waterPercentage 0 50 = none := by
  simp [waterPercentage]

/-- Claim C8 as amended: the code does not guard non-positive heights.
At `tank_height = 0` the percent is undefined (division by zero,
`none`); at strictly negative heights the arithmetic happens to be
defined and yields percent 0, with no invalid flag. -/
theorem degenerateGeometryAmended (tank_height distance : ℚ)
    (hneg : tank_height < 0) (hd : 0 ≤ distance) :
    waterPercentage 0 distance = none ∧
    waterPercentage tank_height distance = some 0 := by
  refine ⟨by simp [waterPercentage], ?_⟩
  rw [waterPercentage_of_ne _ _ (ne_of_lt hneg)]
  have hcm : waterHeightCm tank_height distance = 0 := by
    unfold waterHeightCm
    exact max_eq_left (by linarith)
  rw [hcm]
  simp [ratTrunc_zero]
  decide

/-- Witness for C8 (amended): height −5 with distance 50 yields the
defined degenerate percent 0 while height 0 yields an undefined value. -/
theorem degenerateGeometryAmended_witness :
    waterPercentage 0 50 = none ∧ waterPercentage (-5) 50 = some 0 :=
  degenerateGeometryAmended (-5) 50 (by norm_num) (by norm_num)

/-- Counterexample to claim C9: a tick performs TWO sensor measurements,
not one. With the first sample at distance 68.6 (percent 31, recorded in
`lastWaterPercentage` per line 153) and the second sample timed out
(percent 0), the emitted snapshot reports 0 while the pump decision of
the same tick used 31 — the snapshot is not derived from the decision's
sample. -/
theorem twoSamplesCounterexample :
    (tickBody initialConfig initialPump ⟨4000, false, 0, false, 1000⟩).map
        (fun r => r.snapshot.water) = some 0 ∧
    (tickBody initialConfig initialPump ⟨4000, false, 0, false, 1000⟩).map
        (fun r => r.state.lastWaterPercentage) = some 31 ∧
    (0 : ℤ) ≠ 31 := by
  have h1 : waterPercentage initialConfig.tank_height
      (getDistance 4000 initialConfig.tank_height) = some 31 := by
    show waterPercentage 100 (getDistance 4000 100) = some 31
    rw [getDistance_4000_100]
    exact waterPercentage_100_686
  have h1t : waterPercentage initialConfig.tank_height
      (getDistance 0 initialConfig.tank_height) = some 0 := by
    show waterPercentage 100 (getDistance 0 100) = some 0
    rw [getDistance_timeout_100]
    exact waterPercentage_100_110
  have h2 : wantPumpDecision 31 initialConfig.low_threshold_percent
      initialConfig.high_threshold_percent false ⟨false, 0, 0⟩ 1000 = false := by decide
  refine ⟨?_, ?_, by decide⟩ <;>
    simp [tickBody, broadcastData, h1, h1t, h2, setPump, initialPump]

/-- Claim C9 as amended: each tick takes two sensor samples: the pump
decision and the recorded `lastWaterPercentage` derive from the first
(`loop()` line 136), while the broadcast snapshot's water percent
derives from a second, separate measurement taken inside
`broadcastData()` (line 181). -/
theorem snapshotSecondSampleAmended (cfg : Config) (s : PumpState) (inp : TickInput)
    (hh : cfg.tank_height ≠ 0) :
    (tickBody cfg s inp).map (fun r => r.snapshot.water)
      = waterPercentage cfg.tank_height (getDistance inp.duration2 cfg.tank_height) ∧
    (tickBody cfg s inp).map (fun r => r.state.lastWaterPercentage)
      = waterPercentage cfg.tank_height (getDistance inp.duration1 cfg.tank_height) := by
  have e1 := waterPercentage_of_ne cfg.tank_height
    (getDistance inp.duration1 cfg.tank_height) hh
  have e2 := waterPercentage_of_ne cfg.tank_height
    (getDistance inp.duration2 cfg.tank_height) hh
  constructor <;> simp [tickBody, broadcastData, e1, e2]

/-- Witness for C9 (amended): with both samples at duration 4000 the
snapshot reports the percent of the second sample. -/
theorem snapshotSecondSampleAmended_witness :
    (tickBody initialConfig initialPump ⟨4000, false, 4000, false, 1000⟩).map
        (fun r => r.snapshot.water)
      = waterPercentage initialConfig.tank_height
          (getDistance 4000 initialConfig.tank_height) :=
  (snapshotSecondSampleAmended initialConfig initialPump
    ⟨4000, false, 4000, false, 1000⟩ (by decide)).1

/-- Claim C10: configuration patches are stored verbatim with no range
validation: any threshold (including values outside [0,100]) and any
height or radius (including zero and negatives) overwrite the live
parameters exactly as received, a threshold patch also recomputing the
derived high threshold; absent fields are left untouched. -/
theorem configStoredVerbatim (t : ℤ) (hv rv : ℚ) (c : Config) :
    ((applyPatch ⟨some t, some hv, some rv⟩ c).low_threshold_percent = t ∧
      (applyPatch ⟨some t, some hv, some rv⟩ c).tank_height = hv ∧
      (applyPatch ⟨some t, some hv, some rv⟩ c).tank_radius = rv ∧
      (applyPatch ⟨some t, some hv, some rv⟩ c).high_threshold_percent
        = constrain (t + HYSTERESIS_PERCENT) 0 100) ∧
    ((applyPatch ⟨some t, none, none⟩ c).tank_height = c.tank_height ∧
      (applyPatch ⟨some t, none, none⟩ c).tank_radius = c.tank_radius) ∧
    ((applyPatch ⟨none, some hv, none⟩ c).low_threshold_percent
        = c.low_threshold_percent ∧
      (applyPatch ⟨none, some hv, none⟩ c).high_threshold_percent
        = c.high_threshold_percent) :=
  ⟨⟨rfl, rfl, rfl, rfl⟩, ⟨rfl, rfl⟩, ⟨rfl, rfl⟩⟩

end WaterLevel
